import Mathlib

/-!
Verification of the smart-irrigation scheduling engine
(`backend/irrigation/smart_controller.py`).

The Python code is shallowly embedded over `ℚ`.  Floating point arithmetic
is idealised as exact rational arithmetic; `math.exp` and `math.sqrt` are
abstracted as an explicit `MathKernel` of rational-valued functions (every
theorem below is proved for an arbitrary kernel, so nothing depends on their
values).  Python run-time exceptions that survive this idealisation —
`ZeroDivisionError` on rational division by zero and the `math.sqrt` domain
error on negative arguments — are modelled explicitly with `Except`.
`datetime.now()` is modelled as an explicit `PyDateTime` argument (an
abstract day ordinal standing for the calendar date, plus the hour), and
`dict.get` as `dictGet` over association lists.
-/

set_option linter.unusedVariables false

/-- Python run-time errors reachable in the embedded fragment:
`ZeroDivisionError` and the `math.sqrt` / `math.exp` domain error. -/
inductive PyErr where
  | zeroDivision
  | domainError
deriving DecidableEq, Repr

/-- Abstraction of the transcendental functions `math.exp` and `math.sqrt`
used by `calculate_et0`; the theorems hold for every kernel. -/
structure MathKernel where
  exp : ℚ → ℚ
  sqrt : ℚ → ℚ

/-- Model of `datetime.now()`: an abstract day ordinal (standing for the
calendar date; `strftime` is abstracted to this ordinal) and the hour. -/
structure PyDateTime where
  day : ℕ
  hour : ℕ
deriving DecidableEq, Repr

/-- The `weather` dict consumed by `calculate_optimal_irrigation`.
`rainfall_forecast` models `weather.get('rainfall_forecast', [])`,
with an absent key collapsed to the default `[]`. -/
structure Weather where
  temperature : ℚ
  humidity : ℚ
  wind_speed : ℚ
  rainfall_forecast : List ℚ
deriving DecidableEq, Repr

/-- The `field_data` dict of `calculate_optimal_irrigation`. -/
structure FieldData where
  crop_type : String
  growth_stage : String
  soil_type : String
  area : ℚ
  current_soil_moisture : ℚ
  weather : Weather
deriving DecidableEq, Repr

/-- One record of `SOIL_PROPERTIES`. -/
structure SoilProps where
  field_capacity : ℚ
  wilting_point : ℚ
  infiltration_rate : ℚ
deriving DecidableEq, Repr

/-- Python `str.lower()`, modelled as the character-wise lowercase map
(the behaviour of `.lower()` on the ASCII identifiers used here). -/
def pyLower (s : String) : String := ⟨s.data.map Char.toLower⟩

/-- Python `dict.get(k, dflt)` over an association list. -/
def dictGet {β : Type} (d : List (String × β)) (k : String) (dflt : β) : β :=
  match d with
  | [] => dflt
  | (k0, v) :: rest => if k0 = k then v else dictGet rest k dflt

/-- Stage table of `CROP_COEFFICIENTS['tomato']`. -/
def tomatoKc : List (String × ℚ) :=
  [("initial", 0.6), ("development", 0.7), ("mid", 1.15), ("late", 0.8)]

/-- Stage table of `CROP_COEFFICIENTS['potato']`. -/
def potatoKc : List (String × ℚ) :=
  [("initial", 0.5), ("development", 0.75), ("mid", 1.15), ("late", 0.75)]

/-- Stage table of `CROP_COEFFICIENTS['corn']`. -/
def cornKc : List (String × ℚ) :=
  [("initial", 0.3), ("development", 0.7), ("mid", 1.2), ("late", 0.6)]

/-- Stage table of `CROP_COEFFICIENTS['wheat']`. -/
def wheatKc : List (String × ℚ) :=
  [("initial", 0.3), ("development", 0.7), ("mid", 1.15), ("late", 0.4)]

/-- Stage table of `CROP_COEFFICIENTS['rice']`. -/
def riceKc : List (String × ℚ) :=
  [("initial", 1.05), ("development", 1.10), ("mid", 1.20), ("late", 0.95)]

/-- `SmartIrrigationController.CROP_COEFFICIENTS`. -/
def CROP_COEFFICIENTS : List (String × List (String × ℚ)) :=
  [("tomato", tomatoKc), ("potato", potatoKc), ("corn", cornKc),
   ("wheat", wheatKc), ("rice", riceKc)]

/-- `SOIL_PROPERTIES['sandy']`. -/
def sandyProps : SoilProps := ⟨0.12, 0.04, 30⟩

/-- `SOIL_PROPERTIES['loamy']`. -/
def loamyProps : SoilProps := ⟨0.25, 0.10, 15⟩

/-- `SOIL_PROPERTIES['clay']`. -/
def clayProps : SoilProps := ⟨0.35, 0.20, 5⟩

/-- `SOIL_PROPERTIES['silt']`. -/
def siltProps : SoilProps := ⟨0.30, 0.12, 10⟩

/-- `SmartIrrigationController.SOIL_PROPERTIES`. -/
def SOIL_PROPERTIES : List (String × SoilProps) :=
  [("sandy", sandyProps), ("loamy", loamyProps), ("clay", clayProps), ("silt", siltProps)]

/-- `SOIL_PROPERTIES.get(soil_type, SOIL_PROPERTIES['loamy'])`. -/
def soilFor (soil_type : String) : SoilProps :=
  dictGet SOIL_PROPERTIES soil_type loamyProps

/-- `SmartIrrigationController.calculate_et0`, lines 83-123.  The explicit
error branches are exactly the real-arithmetic failure points of the Python
code: division by zero when `temperature == -237.3` (saturation-vapour
term) or `temperature == -15` (wind term), and the `math.sqrt` domain
error when the radiation estimate is taken for `temperature < -20`. -/
def calculate_et0 (K : MathKernel) (temperature humidity wind_speed : ℚ)
    (solar_radiation : Option ℚ) : Except PyErr ℚ :=
  if temperature + 237.3 = 0 then .error .zeroDivision else
  let es := 0.6108 * K.exp ((17.27 * temperature) / (temperature + 237.3))
  let ea := es * (humidity / 100)
  let vpd := es - ea
  let solarRes : Except PyErr ℚ :=
    match solar_radiation with
    | some s => .ok s
    | none =>
        if temperature + 20 < 0 then .error .domainError
        else .ok (0.16 * K.sqrt (temperature + 20))
  match solarRes with
  | .error e => .error e
  | .ok solar =>
      if temperature + 15 = 0 then .error .zeroDivision else
      .ok (max 0 ((0.408 * solar * (temperature + 5) / 100) +
                  (0.9 * temperature / (temperature + 15)) * wind_speed * vpd))

/-- `SmartIrrigationController.calculate_crop_water_need`, lines 125-155. -/
def calculate_crop_water_need (crop_type growth_stage : String) (et0 area : ℚ) : ℚ :=
  let crop_data := dictGet CROP_COEFFICIENTS (pyLower crop_type) []
  let kc := dictGet crop_data growth_stage 1.0
  let etc := et0 * kc
  let water_need := etc * area * 10
  water_need

/-- `expected_rainfall`, line 226:
`sum(rainfall_forecast[:3]) if rainfall_forecast else 0`. -/
def expectedRainfall (w : Weather) : ℚ :=
  if w.rainfall_forecast.isEmpty then 0 else (w.rainfall_forecast.take 3).sum

/-- Python `round(x, 2)` idealised over `ℚ`: round-half-to-even at the
second decimal. -/
def rndHalfEven (q : ℚ) : ℤ :=
  if q - ⌊q⌋ < 1/2 then ⌊q⌋
  else if (1 : ℚ)/2 < q - ⌊q⌋ then ⌊q⌋ + 1
  else if ⌊q⌋ % 2 = 0 then ⌊q⌋ else ⌊q⌋ + 1

/-- `round(q, 2)` as used throughout the returned irrigation dict. -/
def pyRound2 (q : ℚ) : ℚ := (rndHalfEven (q * 100) : ℚ) / 100

/-- The dict returned by `calculate_optimal_irrigation` (lines 280-310),
flattened; `date` and `day_name` are the keys added afterwards by
`generate_weekly_schedule` (absent, i.e. `none`, in a single-day plan). -/
structure DailyPlan where
  should_irrigate : Bool
  recommendation : String
  daily_need : ℚ
  deficit : ℚ
  rainfall_contribution : ℚ
  total_need : ℚ
  adjusted_for_efficiency : ℚ
  optimal_time : Option String
  duration_hours : ℚ
  method : String
  efficiency : ℚ
  current_moisture : ℚ
  target_moisture : ℚ
  field_capacity : ℚ
  wilting_point : ℚ
  soil_status : String
  et0 : ℚ
  expected_rainfall_mm : ℚ
  temperature : ℚ
  date : Option ℕ := none
  day_name : Option String := none
deriving DecidableEq, Repr

/-- Body of `calculate_optimal_irrigation` after the ET0 value has been
obtained (lines 190-310): crop need, soil lookup, water balance, the
four-way decision, method selection and the assembled plan dict. -/
def buildPlan (now : PyDateTime) (fd : FieldData) (et0 : ℚ) : DailyPlan :=
  let daily_water_need :=
    calculate_crop_water_need fd.crop_type fd.growth_stage et0 fd.area
  let soil_props := soilFor fd.soil_type
  let field_capacity := soil_props.field_capacity
  let wilting_point := soil_props.wilting_point
  let available_water := (field_capacity - wilting_point) * 100
  let target_moisture := field_capacity * 0.8
  let moisture_deficit := max 0 (target_moisture - fd.current_soil_moisture)
  let deficit_water := moisture_deficit * fd.area * 10000 * 0.3
  let expected_rainfall := expectedRainfall fd.weather
  let rainfall_water := expected_rainfall * fd.area * 10
  let total_water_need := max 0 (daily_water_need + deficit_water - rainfall_water)
  let dec : String × Bool × Option String :=
    if expected_rainfall > 10 then
      ("تأجيل الري - أمطار متوقعة", false, none)
    else if fd.current_soil_moisture < wilting_point * 1.2 then
      ("ري فوري - رطوبة منخفضة جداً", true, some "الآن")
    else if fd.current_soil_moisture < target_moisture then
      ("ري مجدول - رطوبة أقل من المثالية", true,
        some (if 5 ≤ now.hour ∧ now.hour < 8 then "الآن (صباحاً)"
              else if 17 ≤ now.hour ∧ now.hour < 20 then "الآن (مساءً)"
              else "غداً الساعة 6 صباحاً"))
    else
      ("لا حاجة للري - رطوبة كافية", false, none)
  let recommendation := dec.1
  let should_irrigate := dec.2.1
  let optimal_time := dec.2.2
  let me : String × ℚ :=
    if fd.soil_type = "sandy" then ("drip", 0.90)
    else if fd.soil_type = "clay" then ("surface", 0.60)
    else ("sprinkler", 0.75)
  let irrigation_method := me.1
  let efficiency := me.2
  let adjusted_water := if should_irrigate then total_water_need / efficiency else 0
  let flow_rate : ℚ := 50
  let duration_hours := if should_irrigate then adjusted_water / flow_rate else 0
  { should_irrigate := should_irrigate
    recommendation := recommendation
    daily_need := pyRound2 daily_water_need
    deficit := pyRound2 deficit_water
    rainfall_contribution := pyRound2 rainfall_water
    total_need := pyRound2 total_water_need
    adjusted_for_efficiency := pyRound2 adjusted_water
    optimal_time := optimal_time
    duration_hours := pyRound2 duration_hours
    method := irrigation_method
    efficiency := efficiency * 100
    current_moisture := fd.current_soil_moisture * 100
    target_moisture := target_moisture * 100
    field_capacity := field_capacity * 100
    wilting_point := wilting_point * 100
    soil_status := if fd.current_soil_moisture ≥ target_moisture then "جيد" else "يحتاج ري"
    et0 := pyRound2 et0
    expected_rainfall_mm := expected_rainfall
    temperature := fd.weather.temperature }

/-- `SmartIrrigationController.calculate_optimal_irrigation`, lines 157-310:
compute ET0 from the day's weather (any Python exception propagates), then
assemble the plan. -/
def calculate_optimal_irrigation (K : MathKernel) (now : PyDateTime)
    (fd : FieldData) : Except PyErr DailyPlan :=
  (calculate_et0 K fd.weather.temperature fd.weather.humidity
      fd.weather.wind_speed none).map (buildPlan now fd)

/-- The weekday-name list of line 332 (indexed by `date.weekday()`,
modelled as the day ordinal mod 7). -/
def DAY_NAMES : List String :=
  ["السبت", "الأحد", "الإثنين", "الثلاثاء", "الأربعاء", "الخميس", "الجمعة"]

/-- The simulator's moisture update, lines 336-340: `+0.05` after an
irrigated day, always `-0.02`, then clamp into `[0.1, 0.4]`. -/
def nextMoisture (m : ℚ) (should_irrigate : Bool) : ℚ :=
  let m1 := if should_irrigate then m + 0.05 else m
  let m2 := m1 - 0.02
  max 0.1 (min 0.4 m2)

/-- The date / weekday tagging of lines 329-332: `daily_plan['date'] = ...`
and `daily_plan['day_name'] = ...`. -/
def taggedPlan (now : PyDateTime) (day_idx : ℕ) (p0 : DailyPlan) : DailyPlan :=
  { p0 with
    date := some (now.day + day_idx)
    day_name := some (DAY_NAMES.getD ((now.day + day_idx) % 7) "") }

/-- Loop body of `generate_weekly_schedule` (lines 321-341): per-day field
copy, single-day plan, date / weekday tag, moisture update.  A Python
exception from any day aborts the whole call. -/
def scheduleAux (K : MathKernel) (now : PyDateTime) (fd : FieldData) :
    ℕ → ℚ → List Weather → Except PyErr (List DailyPlan)
  | _, _, [] => .ok []
  | day_idx, m, w :: rest =>
    match calculate_optimal_irrigation K now
        { fd with current_soil_moisture := m, weather := w } with
    | .error e => .error e
    | .ok p0 =>
        let p := taggedPlan now day_idx p0
        match scheduleAux K now fd (day_idx + 1) (nextMoisture m p.should_irrigate) rest with
        | .error e => .error e
        | .ok ps => .ok (p :: ps)

/-- `SmartIrrigationController.generate_weekly_schedule`, lines 301-343. -/
def generate_weekly_schedule (K : MathKernel) (now : PyDateTime)
    (field_data : FieldData) (weather_forecast : List Weather) :
    Except PyErr (List DailyPlan) :=
  scheduleAux K now field_data 0 field_data.current_soil_moisture weather_forecast

/-- The carried-moisture values after each simulated day, recomputed from
the produced plans by the update rule of lines 336-340. -/
def moistureTrace (m : ℚ) : List DailyPlan → List ℚ
  | [] => []
  | p :: ps =>
      let m1 := nextMoisture m p.should_irrigate
      m1 :: moistureTrace m1 ps

/-- Success condition of the embedded `calculate_et0` when the radiation
estimate is taken from temperature (no solar input): the three
real-arithmetic failure points are avoided. -/
def et0Ok (w : Weather) : Prop :=
  w.temperature + 237.3 ≠ 0 ∧ ¬ w.temperature + 20 < 0 ∧ w.temperature + 15 ≠ 0

/-- A plan with the wall-clock-derived fields (`optimal_time` timing
string, `date` tag, `day_name`) erased. -/
def DailyPlan.core (p : DailyPlan) : DailyPlan :=
  { p with optimal_time := none, date := none, day_name := none }

/-- Inert default plan, used only to state concrete-input corollaries. -/
def emptyPlan : DailyPlan :=
  { should_irrigate := false, recommendation := "", daily_need := 0, deficit := 0,
    rainfall_contribution := 0, total_need := 0, adjusted_for_efficiency := 0,
    optimal_time := none, duration_hours := 0, method := "", efficiency := 0,
    current_moisture := 0, target_moisture := 0, field_capacity := 0,
    wilting_point := 0, soil_status := "", et0 := 0, expected_rainfall_mm := 0,
    temperature := 0 }

/-- Concrete kernel used for concrete-input evaluations (the claims proved
below hold for every kernel). -/
def K0 : MathKernel := ⟨fun _ => 1, fun _ => 1⟩

/-- Concrete clock instant used for concrete-input evaluations. -/
def now0 : PyDateTime := ⟨0, 12⟩

/-- Concrete rain-free weather day. -/
def w0 : Weather := ⟨25, 50, 2, []⟩

/-- Concrete field: tomato at mid stage on loamy soil, 1 ha, low moisture. -/
def fd0 : FieldData := ⟨"tomato", "mid", "loamy", 1, 0.1, w0⟩

/-- Concrete 7-day rain-free forecast. -/
def wf0 : List Weather := [w0, w0, w0, w0, w0, w0, w0]

/-- Concrete field with heavy forecast rain (11 mm on day 1). -/
def fdRain : FieldData := ⟨"tomato", "mid", "loamy", 1, 0.1, ⟨25, 50, 2, [11]⟩⟩

/-- Concrete field with a malformed forecast: negative rainfall, and only
one entry for the 3-day window. -/
def fdNeg : FieldData := ⟨"tomato", "mid", "loamy", 1, 0.1, ⟨25, 50, 2, [-5]⟩⟩

/-- Concrete field whose soil moisture 1.5 lies outside `[0, 1]`. -/
def fdBad : FieldData := ⟨"tomato", "mid", "loamy", 1, 1.5, ⟨25, 50, 2, []⟩⟩

/-- Concrete weather day whose temperature −15 makes the wind term of the
embedded `calculate_et0` divide by zero. -/
def wBadTemp : Weather := ⟨-15, 50, 2, []⟩

/-! ## Helper lemmas -/

/-- A key absent from an association list makes `dictGet` return the default. -/
theorem dictGet_of_not_mem {β : Type} (d : List (String × β)) (k : String) (dflt : β)
    (h : k ∉ d.map Prod.fst) : dictGet d k dflt = dflt := by
  induction d with
  | nil => rfl
  | cons a rest ih =>
      obtain ⟨k0, v⟩ := a
      simp only [List.map_cons, List.mem_cons, not_or] at h
      simp only [dictGet]
      rw [if_neg (fun hh => h.1 hh.symm)]
      exact ih h.2

/-- Every value stored in `CROP_COEFFICIENTS` is one of the five stage
tables, so a `dict.get` with default `[]` lands in this list. -/
theorem cropTable_cases (s : String) :
    dictGet CROP_COEFFICIENTS s [] = [] ∨
    dictGet CROP_COEFFICIENTS s [] = tomatoKc ∨
    dictGet CROP_COEFFICIENTS s [] = potatoKc ∨
    dictGet CROP_COEFFICIENTS s [] = cornKc ∨
    dictGet CROP_COEFFICIENTS s [] = wheatKc ∨
    dictGet CROP_COEFFICIENTS s [] = riceKc := by
  simp only [CROP_COEFFICIENTS, dictGet]
  split_ifs <;> tauto

/-- Every stage table defines exactly the four canonical stages, so any
other stage key falls back to the default `1.0`. -/
theorem stage_fallback (d : List (String × ℚ))
    (hd : d = [] ∨ d = tomatoKc ∨ d = potatoKc ∨ d = cornKc ∨ d = wheatKc ∨ d = riceKc)
    (stage : String) (h1 : stage ≠ "initial") (h2 : stage ≠ "development")
    (h3 : stage ≠ "mid") (h4 : stage ≠ "late") :
    dictGet d stage 1.0 = 1 := by
  rcases hd with rfl | rfl | rfl | rfl | rfl | rfl <;>
    simp [dictGet, tomatoKc, potatoKc, cornKc, wheatKc, riceKc,
      Ne.symm h1, Ne.symm h2, Ne.symm h3, Ne.symm h4] <;>
    norm_num

/-- The soil profile returned by `soilFor` is always one of the four table
rows (with `loamy` doubling as the fallback). -/
theorem soilFor_cases (s : String) :
    soilFor s = sandyProps ∨ soilFor s = loamyProps ∨
    soilFor s = clayProps ∨ soilFor s = siltProps := by
  simp only [soilFor, SOIL_PROPERTIES, dictGet]
  split_ifs <;> tauto

/-- `expected_rainfall` always equals the sum of the first (at most) three
forecast entries: the guard `if rainfall_forecast` only matters for the
empty list, whose 3-prefix sum is `0` anyway. -/
theorem expectedRainfall_eq_sum_take (w : Weather) :
    expectedRainfall w = (w.rainfall_forecast.take 3).sum := by
  unfold expectedRainfall
  split
  · next h => rw [List.isEmpty_iff] at h; rw [h]; rfl
  · rfl

/-- Successful evaluation of the embedded `calculate_et0` (no solar input):
away from the three failure points the result exists and carries the
trailing `max(0, ·)` clamp. -/
theorem calculate_et0_isOk (K : MathKernel) (t hu w : ℚ)
    (h1 : t + 237.3 ≠ 0) (h2 : ¬ t + 20 < 0) (h3 : t + 15 ≠ 0) :
    ∃ v, calculate_et0 K t hu w none = .ok v ∧ 0 ≤ v := by
  simp only [calculate_et0, if_neg h1, if_neg h2, if_neg h3]
  exact ⟨_, rfl, le_max_left _ _⟩

/-- Tagging a plan with its date leaves `should_irrigate` unchanged. -/
theorem taggedPlan_should (now : PyDateTime) (i : ℕ) (p : DailyPlan) :
    (taggedPlan now i p).should_irrigate = p.should_irrigate := rfl

/-- Tagging a plan with its date does not change its clock-free core. -/
theorem taggedPlan_core (now : PyDateTime) (i : ℕ) (p : DailyPlan) :
    (taggedPlan now i p).core = p.core := rfl

/-- An exception of `calculate_optimal_irrigation` can only come from the
ET0 computation; when that succeeds the whole call returns the assembled
plan. -/
theorem calcOpt_isOk (K : MathKernel) (now : PyDateTime) (fd : FieldData)
    (h : et0Ok fd.weather) :
    ∃ e, 0 ≤ e ∧ calculate_optimal_irrigation K now fd = .ok (buildPlan now fd e) := by
  obtain ⟨h1, h2, h3⟩ := h
  obtain ⟨v, hv, hv0⟩ := calculate_et0_isOk K fd.weather.temperature
    fd.weather.humidity fd.weather.wind_speed h1 h2 h3
  exact ⟨v, hv0, by rw [calculate_optimal_irrigation, hv]; rfl⟩

/-! ## C4 -/

/-- C4: `calculate_crop_water_need` returns `et0 * Kc * area * 10` with the
Kc looked up for `(crop, stage)`; a crop absent from the table falls back to
the neutral `Kc = 1.0`; and tomato / mid / et0 = 5 / 2 ha gives 115 m³. -/
theorem C4_crop_water_need_formula (crop stage : String) (et0 area : ℚ) :
    (∀ d kc, dictGet CROP_COEFFICIENTS (pyLower crop) [] = d →
        dictGet d stage 1.0 = kc →
        calculate_crop_water_need crop stage et0 area = et0 * kc * area * 10) ∧
    (pyLower crop ∉ CROP_COEFFICIENTS.map Prod.fst →
        calculate_crop_water_need crop stage et0 area = et0 * area * 10) ∧
    calculate_crop_water_need "tomato" "mid" 5 2 = 115 := by
  refine ⟨?_, ?_, ?_⟩
  · intro d kc hd hkc
    simp only [calculate_crop_water_need, hd, hkc]
  · intro h
    simp only [calculate_crop_water_need]
    rw [dictGet_of_not_mem CROP_COEFFICIENTS (pyLower crop) [] h]
    simp only [dictGet]
    norm_num
  · have hl : pyLower "tomato" = "tomato" := by decide
    simp only [calculate_crop_water_need, hl, CROP_COEFFICIENTS, tomatoKc, dictGet,
      (show ("initial" : String) ≠ "mid" by decide),
      (show ("development" : String) ≠ "mid" by decide)]
    norm_num

/-- C4 witness: the unknown crop `banana` falls back to `Kc = 1.0`, giving
`5 * 2 * 10 = 100` m³. -/
theorem C4_crop_water_need_formula_witness :
    calculate_crop_water_need "banana" "mid" 5 2 = 5 * 2 * 10 :=
  (C4_crop_water_need_formula "banana" "mid" 5 2).2.1 (by decide)

/-! ## C10 -/

/-- C10: a growth stage outside `{initial, development, mid, late}` falls
back to `Kc = 1.0` for every crop, including crops present in the table. -/
theorem C10_stage_fallback (crop stage : String) (et0 area : ℚ)
    (h1 : stage ≠ "initial") (h2 : stage ≠ "development")
    (h3 : stage ≠ "mid") (h4 : stage ≠ "late") :
    calculate_crop_water_need crop stage et0 area = et0 * area * 10 := by
  have hd := cropTable_cases (pyLower crop)
  simp only [calculate_crop_water_need,
    stage_fallback (dictGet CROP_COEFFICIENTS (pyLower crop) []) hd stage h1 h2 h3 h4]
  norm_num

/-- C10 witness: tomato (a crop in the table) with the unknown stage
`flowering` uses `Kc = 1.0`. -/
theorem C10_stage_fallback_witness :
    calculate_crop_water_need "tomato" "flowering" 5 2 = 5 * 2 * 10 :=
  C10_stage_fallback "tomato" "flowering" 5 2 (by decide) (by decide) (by decide) (by decide)

/-! ## C5 -/

/-- C5 counterexample: at temperature −15 °C (outside the plausible range
the claim explicitly includes) the wind term of `calculate_et0` divides by
`temperature + 15 = 0`, so the call raises `ZeroDivisionError` instead of
returning a clamped non-negative value. -/
theorem C5_et0_raises_cex :
    calculate_et0 K0 (-15) 50 2 none = .error .zeroDivision := by
  norm_num [calculate_et0]

/-- C5 amended: away from the real-arithmetic failure points — temperature
−237.3 (saturation-vapour denominator), −15 (wind-term denominator), and,
when no solar radiation is supplied, temperatures below −20 (negative
`sqrt` argument) — `calculate_et0` returns a value, and that value is
always ≥ 0 thanks to the final `max(0, ·)` clamp. -/
theorem C5_et0_nonneg_amended (K : MathKernel) (t hu w : ℚ) (s : Option ℚ)
    (h1 : t + 237.3 ≠ 0) (h2 : s = none → ¬ t + 20 < 0) (h3 : t + 15 ≠ 0) :
    (calculate_et0 K t hu w s).toOption.isSome = true ∧
    ∀ v, calculate_et0 K t hu w s = .ok v → 0 ≤ v := by
  cases s with
  | none =>
      obtain ⟨v, hv, h0⟩ := calculate_et0_isOk K t hu w h1 (h2 rfl) h3
      rw [hv]
      refine ⟨rfl, fun v' hv' => ?_⟩
      injection hv' with h
      exact h ▸ h0
  | some sv =>
      simp only [calculate_et0, if_neg h1, if_neg h3]
      exact ⟨rfl, fun v' hv' => by injection hv' with h; exact h ▸ le_max_left _ _⟩

/-- C5 witness: a plausible weather input (30 °C, 40 %, 3 m/s) produces a
value. -/
theorem C5_et0_nonneg_amended_witness :
    (calculate_et0 K0 30 40 3 none).toOption.isSome = true :=
  (C5_et0_nonneg_amended K0 30 40 3 none (by norm_num)
    (fun _ => by norm_num) (by norm_num)).1

/-! ## C1 -/

/-- C1: whenever the first three forecast days sum to more than 10 mm of
rain, any plan produced by `calculate_optimal_irrigation` has
`should_irrigate = false` with the defer-for-rain recommendation,
regardless of the current soil moisture — the rain rule is checked first. -/
theorem C1_rain_defer_priority (K : MathKernel) (now : PyDateTime)
    (fd : FieldData) (p : DailyPlan)
    (hr : 10 < (fd.weather.rainfall_forecast.take 3).sum)
    (hp : calculate_optimal_irrigation K now fd = .ok p) :
    p.should_irrigate = false ∧ p.recommendation = "تأجيل الري - أمطار متوقعة" := by
  have hr' : expectedRainfall fd.weather > 10 := by
    rw [expectedRainfall_eq_sum_take]; exact hr
  rw [calculate_optimal_irrigation] at hp
  cases het : calculate_et0 K fd.weather.temperature fd.weather.humidity
      fd.weather.wind_speed none with
  | error e => rw [het] at hp; simp [Except.map] at hp
  | ok e =>
      rw [het] at hp
      simp only [Except.map, Except.ok.injEq] at hp
      subst hp
      simp only [buildPlan]
      rw [if_pos hr']
      exact ⟨rfl, rfl⟩

/-- C1 witness: with 11 mm of rain forecast tomorrow and very low moisture
(0.1, below the critical threshold), the produced plan still defers. -/
theorem C1_rain_defer_priority_witness :
    ((calculate_optimal_irrigation K0 now0 fdRain).toOption.getD emptyPlan).should_irrigate
      = false := by
  obtain ⟨e, he0, he⟩ := calcOpt_isOk K0 now0 fdRain
    ⟨by norm_num [fdRain], by norm_num [fdRain], by norm_num [fdRain]⟩
  have h := C1_rain_defer_priority K0 now0 fdRain (buildPlan now0 fdRain e)
    (by norm_num [fdRain]) he
  rw [he]
  exact h.1

/-! ## Rounding monotonicity and C3 -/

/-- Half-even rounding lands on the floor or the floor plus one. -/
theorem rndHalfEven_bounds (q : ℚ) :
    ⌊q⌋ ≤ rndHalfEven q ∧ rndHalfEven q ≤ ⌊q⌋ + 1 := by
  unfold rndHalfEven
  split_ifs <;> omega

/-- Half-even rounding is monotone. -/
theorem rndHalfEven_mono {x y : ℚ} (h : x ≤ y) :
    rndHalfEven x ≤ rndHalfEven y := by
  have hf : ⌊x⌋ ≤ ⌊y⌋ := Int.floor_mono h
  rcases eq_or_lt_of_le hf with heq | hlt
  · have hxy : x - (⌊x⌋ : ℚ) ≤ y - (⌊y⌋ : ℚ) := by
      rw [heq]; linarith
    unfold rndHalfEven
    rw [heq] at hxy ⊢
    split_ifs <;> first | omega | (exfalso; linarith)
  · have bx := rndHalfEven_bounds x
    have hy := rndHalfEven_bounds y
    omega

/-- `round(·, 2)` is monotone. -/
theorem pyRound2_mono {x y : ℚ} (h : x ≤ y) : pyRound2 x ≤ pyRound2 y := by
  unfold pyRound2
  have h' := rndHalfEven_mono (mul_le_mul_of_nonneg_right h (by norm_num : (0:ℚ) ≤ 100))
  have hc : ((rndHalfEven (x * 100) : ℚ)) ≤ ((rndHalfEven (y * 100) : ℚ)) := by
    exact_mod_cast h'
  linarith

/-- The `total_need` field of a plan is the rounded water balance
`max(0, daily_need + deficit_water − rainfall_water)` of lines 213-231. -/
theorem buildPlan_total_need (now : PyDateTime) (fd : FieldData) (e : ℚ) :
    (buildPlan now fd e).total_need =
      pyRound2 (max 0 (calculate_crop_water_need fd.crop_type fd.growth_stage e fd.area +
        max 0 ((soilFor fd.soil_type).field_capacity * 0.8 - fd.current_soil_moisture) *
          fd.area * 10000 * 0.3 -
        expectedRainfall fd.weather * fd.area * 10)) := rfl

/-- C3: with crop, stage, soil, area (≥ 0, per the data-model invariant
`area > 0`) and weather fixed, the reported `total_need` is monotonically
non-increasing in the current soil moisture. -/
theorem C3_total_need_antitone (K : MathKernel) (now : PyDateTime) (fd : FieldData)
    (m1 m2 : ℚ) (harea : 0 ≤ fd.area) (hm : m1 ≤ m2) (p1 p2 : DailyPlan)
    (h1 : calculate_optimal_irrigation K now { fd with current_soil_moisture := m1 } = .ok p1)
    (h2 : calculate_optimal_irrigation K now { fd with current_soil_moisture := m2 } = .ok p2) :
    p2.total_need ≤ p1.total_need := by
  simp only [calculate_optimal_irrigation] at h1 h2
  cases het : calculate_et0 K fd.weather.temperature fd.weather.humidity
      fd.weather.wind_speed none with
  | error e => rw [het] at h1; simp [Except.map] at h1
  | ok e =>
      rw [het] at h1 h2
      simp only [Except.map, Except.ok.injEq] at h1 h2
      subst h1
      subst h2
      rw [buildPlan_total_need, buildPlan_total_need]
      apply pyRound2_mono
      have hd : max 0 ((soilFor fd.soil_type).field_capacity * 0.8 - m2) ≤
          max 0 ((soilFor fd.soil_type).field_capacity * 0.8 - m1) :=
        max_le_max le_rfl (by linarith)
      have hd2 : max 0 ((soilFor fd.soil_type).field_capacity * 0.8 - m2) *
            fd.area * 10000 * 0.3 ≤
          max 0 ((soilFor fd.soil_type).field_capacity * 0.8 - m1) *
            fd.area * 10000 * 0.3 := by
        exact mul_le_mul_of_nonneg_right
          (mul_le_mul_of_nonneg_right
            (mul_le_mul_of_nonneg_right hd harea) (by norm_num)) (by norm_num)
      exact max_le_max le_rfl (by simp only []; linarith)

/-- C3 witness: on the loamy demo field, raising moisture from 0.10 to 0.15
does not increase the reported total need. -/
theorem C3_total_need_antitone_witness :
    ((calculate_optimal_irrigation K0 now0
        { fd0 with current_soil_moisture := 3/20 }).toOption.getD emptyPlan).total_need ≤
    ((calculate_optimal_irrigation K0 now0
        { fd0 with current_soil_moisture := 1/10 }).toOption.getD emptyPlan).total_need := by
  obtain ⟨e1, he10, he1⟩ := calcOpt_isOk K0 now0 { fd0 with current_soil_moisture := 1/10 }
    ⟨by norm_num [fd0, w0], by norm_num [fd0, w0], by norm_num [fd0, w0]⟩
  obtain ⟨e2, he20, he2⟩ := calcOpt_isOk K0 now0 { fd0 with current_soil_moisture := 3/20 }
    ⟨by norm_num [fd0, w0], by norm_num [fd0, w0], by norm_num [fd0, w0]⟩
  have h := C3_total_need_antitone K0 now0 fd0 (1/10) (3/20)
    (by norm_num [fd0]) (by norm_num) _ _ he1 he2
  rw [he1, he2]
  simpa [Except.toOption] using h

/-! ## C6 -/

/-- C6 counterexample: a forecast that violates the claimed caller contract
in both ways at once — a single entry instead of a 3-day window, and a
negative amount — is accepted: the call returns a plan (no `InvalidInput`
failure exists in the code) and the negative rainfall −5 flows straight
into the reported expected rainfall. -/
theorem C6_no_forecast_validation_cex :
    (calculate_optimal_irrigation K0 now0 fdNeg).toOption.isSome = true ∧
    ((calculate_optimal_irrigation K0 now0 fdNeg).toOption.getD
        emptyPlan).expected_rainfall_mm = -5 := by
  obtain ⟨e, he0, he⟩ := calcOpt_isOk K0 now0 fdNeg
    ⟨by norm_num [fdNeg], by norm_num [fdNeg], by norm_num [fdNeg]⟩
  rw [he]
  refine ⟨rfl, ?_⟩
  have hb : (buildPlan now0 fdNeg e).expected_rainfall_mm = expectedRainfall fdNeg.weather := rfl
  simp only [Except.toOption, Option.getD, hb]
  norm_num [expectedRainfall, fdNeg]

/-- C6 amended: the engine never validates the rainfall forecast.  Whatever
its length or sign, any produced plan reports as expected rainfall the sum
of the first at-most-three entries (silent truncation), and the only
failures of the call are the ET0 arithmetic errors, which do not depend on
the forecast at all. -/
theorem C6_forecast_truncation_amended (K : MathKernel) (now : PyDateTime)
    (fd : FieldData)
    (h1 : fd.weather.temperature + 237.3 ≠ 0)
    (h2 : ¬ fd.weather.temperature + 20 < 0)
    (h3 : fd.weather.temperature + 15 ≠ 0) :
    (calculate_optimal_irrigation K now fd).toOption.isSome = true ∧
    ∀ p, calculate_optimal_irrigation K now fd = .ok p →
      p.expected_rainfall_mm = (fd.weather.rainfall_forecast.take 3).sum := by
  obtain ⟨e, he0, he⟩ := calcOpt_isOk K now fd ⟨h1, h2, h3⟩
  rw [he]
  refine ⟨rfl, fun p hp => ?_⟩
  injection hp with hp
  subst hp
  have hb : (buildPlan now fd e).expected_rainfall_mm = expectedRainfall fd.weather := rfl
  rw [hb, expectedRainfall_eq_sum_take]

/-- C6 witness: the malformed forecast `[-5]` is accepted. -/
theorem C6_forecast_truncation_amended_witness :
    (calculate_optimal_irrigation K0 now0 fdNeg).toOption.isSome = true :=
  (C6_forecast_truncation_amended K0 now0 fdNeg (by norm_num [fdNeg])
    (by norm_num [fdNeg]) (by norm_num [fdNeg])).1

/-! ## Schedule helper lemmas -/

/-- An exception in the first simulated day aborts the whole schedule. -/
theorem scheduleAux_error_head (K : MathKernel) (now : PyDateTime) (fd : FieldData)
    (i : ℕ) (m : ℚ) (w : Weather) (rest : List Weather) (e : PyErr)
    (h : calculate_optimal_irrigation K now
        { fd with current_soil_moisture := m, weather := w } = .error e) :
    scheduleAux K now fd i m (w :: rest) = .error e := by
  simp only [scheduleAux, h]

/-- A successful schedule has exactly one plan per forecast day. -/
theorem scheduleAux_length (K : MathKernel) (now : PyDateTime) (fd : FieldData) :
    ∀ (wf : List Weather) (i : ℕ) (m : ℚ) (ps : List DailyPlan),
      scheduleAux K now fd i m wf = .ok ps → ps.length = wf.length := by
  intro wf
  induction wf with
  | nil =>
      intro i m ps h
      injection h with h
      subst h
      rfl
  | cons w rest ih =>
      intro i m ps h
      simp only [scheduleAux] at h
      split at h
      · exact absurd h (by simp)
      · split at h
        · exact absurd h (by simp)
        · injection h with h
          subst h
          next ps' hr => simp [ih _ _ ps' hr]

/-- If every forecast day avoids the ET0 failure points, the simulation
completes. -/
theorem scheduleAux_isSome (K : MathKernel) (now : PyDateTime) (fd : FieldData) :
    ∀ (wf : List Weather) (i : ℕ) (m : ℚ), (∀ w ∈ wf, et0Ok w) →
      (scheduleAux K now fd i m wf).toOption.isSome = true := by
  intro wf
  induction wf with
  | nil => intro i m _; rfl
  | cons w rest ih =>
      intro i m hw
      obtain ⟨e, he0, he⟩ := calcOpt_isOk K now
        { fd with current_soil_moisture := m, weather := w }
        (hw w (List.mem_cons_self w rest))
      simp only [scheduleAux, he, taggedPlan_should]
      have hih := ih (i + 1)
        (nextMoisture m (buildPlan now
          { fd with current_soil_moisture := m, weather := w } e).should_irrigate)
        (fun w' hw' => hw w' (List.mem_cons_of_mem _ hw'))
      cases hsr : scheduleAux K now fd (i + 1)
          (nextMoisture m (buildPlan now
            { fd with current_soil_moisture := m, weather := w } e).should_irrigate) rest with
      | error e2 => rw [hsr] at hih; simp [Except.toOption] at hih
      | ok ps2 => rfl

/-- A schedule whose forecast days all avoid the ET0 failure points
evaluates to an explicit plan list. -/
theorem scheduleAux_isOk (K : MathKernel) (now : PyDateTime) (fd : FieldData)
    (wf : List Weather) (i : ℕ) (m : ℚ) (hw : ∀ w ∈ wf, et0Ok w) :
    ∃ ps, scheduleAux K now fd i m wf = .ok ps := by
  have h := scheduleAux_isSome K now fd wf i m hw
  cases hs : scheduleAux K now fd i m wf with
  | error e => rw [hs] at h; simp [Except.toOption] at h
  | ok ps => exact ⟨ps, rfl⟩

/-- The clamp `max(0.1, min(0.4, ·))` always lands in `[0.1, 0.4]`. -/
theorem clamp_bounds (x : ℚ) :
    1/10 ≤ max 0.1 (min 0.4 x) ∧ max 0.1 (min 0.4 x) ≤ 2/5 := by
  constructor
  · exact le_trans (by norm_num) (le_max_left _ _)
  · exact max_le (by norm_num) (le_trans (min_le_left _ _) (by norm_num))

/-- The simulator's moisture update always lands in `[0.1, 0.4]`. -/
theorem nextMoisture_mem (m : ℚ) (b : Bool) :
    1/10 ≤ nextMoisture m b ∧ nextMoisture m b ≤ 2/5 := by
  unfold nextMoisture
  exact clamp_bounds _

/-- Every carried-moisture value after any simulated day is in `[0.1, 0.4]`:
each one is produced by the clamp. -/
theorem moistureTrace_forall (m : ℚ) (ps : List DailyPlan) :
    (moistureTrace m ps).Forall (fun x => 1/10 ≤ x ∧ x ≤ 2/5) := by
  induction ps generalizing m with
  | nil => simp [moistureTrace]
  | cons p ps ih =>
      simp only [moistureTrace, List.forall_cons]
      exact ⟨nextMoisture_mem m p.should_irrigate, ih _⟩

/-! ## C2 -/

/-- C2 counterexample: a one-day forecast whose temperature is −15 °C makes
the simulated day raise `ZeroDivisionError` inside ET0, so
`generate_weekly_schedule` returns no schedule at all instead of one plan
per forecast day. -/
theorem C2_schedule_error_cex :
    (generate_weekly_schedule K0 now0 fd0 [wBadTemp]).toOption.isSome = false := by
  have hc : calculate_optimal_irrigation K0 now0
      { fd0 with current_soil_moisture := fd0.current_soil_moisture, weather := wBadTemp } =
      .error .zeroDivision := by
    norm_num [calculate_optimal_irrigation, calculate_et0, wBadTemp, fd0, Except.map]
  rw [generate_weekly_schedule,
    scheduleAux_error_head K0 now0 fd0 0 fd0.current_soil_moisture wBadTemp [] _ hc]
  rfl

/-- C2 amended: provided every forecast day avoids the ET0 arithmetic
failure points (temperature different from −237.3 and −15 and not below
−20), the schedule is produced, has exactly one plan per forecast day, and
every carried soil-moisture value after a simulated day lies in
`[0.10, 0.40]` — it is bumped by +0.05 on irrigated days, always lowered by
0.02, and clamped. -/
theorem C2_schedule_length_invariant (K : MathKernel) (now : PyDateTime)
    (fd : FieldData) (wf : List Weather) (hw : ∀ w ∈ wf, et0Ok w) :
    (generate_weekly_schedule K now fd wf).toOption.isSome = true ∧
    ∀ ps, generate_weekly_schedule K now fd wf = .ok ps →
      ps.length = wf.length ∧
      (moistureTrace fd.current_soil_moisture ps).Forall
        (fun x => 1/10 ≤ x ∧ x ≤ 2/5) := by
  obtain ⟨ps, hps⟩ := scheduleAux_isOk K now fd wf 0 fd.current_soil_moisture hw
  simp only [generate_weekly_schedule, hps]
  refine ⟨rfl, fun ps' hps' => ?_⟩
  injection hps' with h
  subst h
  exact ⟨scheduleAux_length K now fd wf 0 fd.current_soil_moisture ps hps,
    moistureTrace_forall _ _⟩

/-- C2 witness: the 7-day rain-free demo forecast yields a schedule. -/
theorem C2_schedule_length_invariant_witness :
    (generate_weekly_schedule K0 now0 fd0 wf0).toOption.isSome = true :=
  (C2_schedule_length_invariant K0 now0 fd0 wf0 (by
    intro w hw
    simp only [wf0, List.mem_cons, List.mem_singleton, List.not_mem_nil, or_false] at hw
    rcases hw with rfl | rfl | rfl | rfl | rfl | rfl | rfl <;>
      exact ⟨by norm_num [w0], by norm_num [w0], by norm_num [w0]⟩)).1

/-! ## C7 -/

/-- C7 counterexample: the initial soil moisture 1.5 lies outside `[0, 1]`,
yet the simulator accepts it and produces a schedule — there is no
`InvalidInput` failure at the boundary. -/
theorem C7_no_moisture_validation_cex :
    ¬ (0 ≤ fdBad.current_soil_moisture ∧ fdBad.current_soil_moisture ≤ 1) ∧
    (generate_weekly_schedule K0 now0 fdBad [w0]).toOption.isSome = true := by
  constructor
  · norm_num [fdBad]
  · obtain ⟨ps, hps⟩ := scheduleAux_isOk K0 now0 fdBad [w0] 0
      fdBad.current_soil_moisture (by
        intro w hw
        simp only [List.mem_singleton] at hw
        subst hw
        exact ⟨by norm_num [w0], by norm_num [w0], by norm_num [w0]⟩)
    simp only [generate_weekly_schedule, hps]
    rfl

/-- C7 amended: `generate_weekly_schedule` performs no moisture validation:
an initial moisture outside `[0, 1]` is accepted unchanged (the first day is
planned with it), and — as the second half of the claim correctly states —
every moisture value produced by the simulator's own clamp step afterwards
lies in `[0.10, 0.40] ⊆ [0, 1]` by construction. -/
theorem C7_moisture_accepted_amended (K : MathKernel) (now : PyDateTime)
    (fd : FieldData) (wf : List Weather)
    (hm : ¬ (0 ≤ fd.current_soil_moisture ∧ fd.current_soil_moisture ≤ 1))
    (hw : ∀ w ∈ wf, et0Ok w) :
    (generate_weekly_schedule K now fd wf).toOption.isSome = true ∧
    ∀ ps, generate_weekly_schedule K now fd wf = .ok ps →
      (moistureTrace fd.current_soil_moisture ps).Forall
        (fun x => 1/10 ≤ x ∧ x ≤ 2/5) := by
  obtain ⟨ps, hps⟩ := scheduleAux_isOk K now fd wf 0 fd.current_soil_moisture hw
  simp only [generate_weekly_schedule, hps]
  exact ⟨rfl, fun ps' _ => moistureTrace_forall _ _⟩

/-- C7 witness: the out-of-range moisture 1.5 is accepted. -/
theorem C7_moisture_accepted_amended_witness :
    (generate_weekly_schedule K0 now0 fdBad [w0]).toOption.isSome = true :=
  (C7_moisture_accepted_amended K0 now0 fdBad [w0] (by norm_num [fdBad]) (by
    intro w hw
    simp only [List.mem_singleton] at hw
    subst hw
    exact ⟨by norm_num [w0], by norm_num [w0], by norm_num [w0]⟩)).1

/-! ## C8 -/

/-- Re-tagging the date fields does not change the clock-free core. -/
theorem core_update (p : DailyPlan) (d : Option ℕ) (n : Option String) :
    ({ p with date := d, day_name := n } : DailyPlan).core = p.core := rfl

/-- The single-day plan depends on the wall clock only through the fields
erased by `DailyPlan.core` (the recommended-timing string; the date tag and
weekday name are only added later by the scheduler). -/
theorem buildPlan_core_clock_free (now1 now2 : PyDateTime) (fd : FieldData) (e : ℚ) :
    (buildPlan now1 fd e).core = (buildPlan now2 fd e).core := by
  simp only [buildPlan, DailyPlan.core]
  split_ifs <;> rfl

/-- The whole simulation, stripped of the clock-derived fields, is
independent of the wall clock (and of the starting day index used for the
date tags). -/
theorem scheduleAux_core_clock_free (K : MathKernel) (fd : FieldData)
    (now1 now2 : PyDateTime) :
    ∀ (wf : List Weather) (i1 i2 : ℕ) (m : ℚ),
      (scheduleAux K now1 fd i1 m wf).map (List.map DailyPlan.core) =
      (scheduleAux K now2 fd i2 m wf).map (List.map DailyPlan.core) := by
  intro wf
  induction wf with
  | nil => intro i1 i2 m; rfl
  | cons w rest ih =>
      intro i1 i2 m
      simp only [scheduleAux, calculate_optimal_irrigation]
      cases het : calculate_et0 K w.temperature w.humidity w.wind_speed none with
      | error e => rfl
      | ok e =>
          simp only [Except.map, taggedPlan_should]
          have hsame : (buildPlan now1
                { fd with current_soil_moisture := m, weather := w } e).should_irrigate
              = (buildPlan now2
                { fd with current_soil_moisture := m, weather := w } e).should_irrigate := by
            have h := congrArg DailyPlan.should_irrigate
              (buildPlan_core_clock_free now1 now2
                { fd with current_soil_moisture := m, weather := w } e)
            simpa [DailyPlan.core] using h
          rw [hsame]
          have hih := ih (i1 + 1) (i2 + 1) (nextMoisture m (buildPlan now2
            { fd with current_soil_moisture := m, weather := w } e).should_irrigate)
          cases hs1 : scheduleAux K now1 fd (i1 + 1) (nextMoisture m (buildPlan now2
              { fd with current_soil_moisture := m, weather := w } e).should_irrigate) rest with
          | error e1 =>
              cases hs2 : scheduleAux K now2 fd (i2 + 1) (nextMoisture m (buildPlan now2
                  { fd with current_soil_moisture := m, weather := w } e).should_irrigate) rest with
              | error e2 =>
                  rw [hs1, hs2] at hih
                  simp only [Except.map, Except.error.injEq] at hih
                  simp [hih]
              | ok ps2 =>
                  rw [hs1, hs2] at hih
                  simp [Except.map] at hih
          | ok ps1 =>
              cases hs2 : scheduleAux K now2 fd (i2 + 1) (nextMoisture m (buildPlan now2
                  { fd with current_soil_moisture := m, weather := w } e).should_irrigate) rest with
              | error e2 =>
                  rw [hs1, hs2] at hih
                  simp [Except.map] at hih
              | ok ps2 =>
                  rw [hs1, hs2] at hih
                  simp only [Except.map, Except.ok.injEq] at hih
                  simp only [Except.map, List.map_cons, Except.ok.injEq, List.cons.injEq]
                  refine ⟨?_, hih⟩
                  rw [taggedPlan_core, taggedPlan_core]
                  exact buildPlan_core_clock_free now1 now2 _ e

/-- C8 amended: the schedule computed from fixed explicit inputs is
reproducible in all fields except the wall-clock-derived ones: for any two
clock instants, the two schedules agree after erasing the date tag, weekday
name and recommended-timing string (in particular every decision, quantity
and the carried moisture path are clock-independent); the erased fields do
depend on `datetime.now()`. -/
theorem C8_clock_free_core_deterministic (K : MathKernel) (fd : FieldData)
    (wf : List Weather) (now1 now2 : PyDateTime) :
    (generate_weekly_schedule K now1 fd wf).map (List.map DailyPlan.core) =
    (generate_weekly_schedule K now2 fd wf).map (List.map DailyPlan.core) :=
  scheduleAux_core_clock_free K fd now1 now2 wf 0 0 fd.current_soil_moisture

/-- C8 counterexample: two invocations on identical explicit inputs, one
day apart on the wall clock, produce different schedules — the date tags
differ — so the output is not reproducible from the explicit inputs alone. -/
theorem C8_clock_dependence_cex :
    ((generate_weekly_schedule K0 ⟨0, 12⟩ fd0 [w0]).toOption.getD []).map DailyPlan.date ≠
    ((generate_weekly_schedule K0 ⟨1, 12⟩ fd0 [w0]).toOption.getD []).map DailyPlan.date := by
  norm_num [generate_weekly_schedule, scheduleAux, calculate_optimal_irrigation,
    calculate_et0, buildPlan, expectedRainfall, taggedPlan,
    soilFor, SOIL_PROPERTIES, dictGet, loamyProps,
    fd0, w0, K0, Except.map, Except.toOption, max_def, min_def,
    (show ("sandy" : String) ≠ "loamy" by decide),
    (show ("loamy" : String) ≠ "sandy" by decide),
    (show ("loamy" : String) ≠ "clay" by decide)]

/-! ## C9 -/

/-- C9 counterexample: on the rain-free 7-day forecast with initial
moisture 0.10 on loamy soil, days 4 and 5 (0-indexed) have
`should_irrigate = false` although the moisture carried into them is 0.22
and 0.20 — far below the clamp ceiling 0.40.  The clamp ceiling is never
what stops irrigation. -/
theorem C9_not_ceiling_cex :
    ((generate_weekly_schedule K0 now0 fd0 wf0).toOption.getD []).map DailyPlan.should_irrigate
      = [true, true, true, true, false, false, true] ∧
    moistureTrace fd0.current_soil_moisture
        ((generate_weekly_schedule K0 now0 fd0 wf0).toOption.getD [])
      = [13/100, 4/25, 19/100, 11/50, 1/5, 9/50, 21/100] ∧
    (11/50 : ℚ) < 2/5 ∧ (1/5 : ℚ) < 2/5 := by
  refine ⟨?_, ?_, by norm_num, by norm_num⟩ <;>
    norm_num [generate_weekly_schedule, scheduleAux, calculate_optimal_irrigation,
      calculate_et0, buildPlan, expectedRainfall, moistureTrace, taggedPlan,
      nextMoisture, soilFor, SOIL_PROPERTIES, dictGet, loamyProps,
      fd0, w0, wf0, K0, now0, Except.map, Except.toOption, max_def, min_def,
      (show ("sandy" : String) ≠ "loamy" by decide),
      (show ("loamy" : String) ≠ "sandy" by decide),
      (show ("loamy" : String) ≠ "clay" by decide)]

/-- C9 amended: on a day with at most 10 mm of 3-day rain, the produced
plan irrigates exactly when the current moisture is below the soil's target
moisture `0.8 × field_capacity`; for every soil profile the table can
produce, that target is at most 0.28, strictly below the simulator's clamp
ceiling 0.40 — so irrigation stops at the target, never at the ceiling. -/
theorem C9_target_stops_irrigation_amended (K : MathKernel) (now : PyDateTime)
    (fd : FieldData) (p : DailyPlan)
    (hp : calculate_optimal_irrigation K now fd = .ok p)
    (hr : ¬ expectedRainfall fd.weather > 10) :
    (p.should_irrigate = true ↔
      fd.current_soil_moisture < (soilFor fd.soil_type).field_capacity * 0.8) ∧
    (soilFor fd.soil_type).field_capacity * 0.8 ≤ 28/100 := by
  rw [calculate_optimal_irrigation] at hp
  cases het : calculate_et0 K fd.weather.temperature fd.weather.humidity
      fd.weather.wind_speed none with
  | error e => rw [het] at hp; simp [Except.map] at hp
  | ok e =>
      rw [het] at hp
      simp only [Except.map, Except.ok.injEq] at hp
      subst hp
      have hcases := soilFor_cases fd.soil_type
      constructor
      · simp only [buildPlan]
        rw [if_neg hr]
        rcases hcases with hs | hs | hs | hs <;>
          rw [hs] <;>
          simp only [sandyProps, loamyProps, clayProps, siltProps] <;>
          split_ifs <;>
          first
            | exact iff_of_true rfl (by linarith)
            | exact iff_of_false (by simp) (by push_neg at *; linarith)
      · rcases hcases with hs | hs | hs | hs <;> rw [hs] <;>
          norm_num [sandyProps, loamyProps, clayProps, siltProps]

/-- C9 witness: day 1 of the demo scenario (moisture 0.10, below the loamy
target 0.20) irrigates. -/
theorem C9_target_stops_irrigation_amended_witness :
    ((calculate_optimal_irrigation K0 now0 fd0).toOption.getD emptyPlan).should_irrigate
      = true := by
  obtain ⟨e, he0, he⟩ := calcOpt_isOk K0 now0 fd0
    ⟨by norm_num [fd0, w0], by norm_num [fd0, w0], by norm_num [fd0, w0]⟩
  have h := C9_target_stops_irrigation_amended K0 now0 fd0 _ he
    (by norm_num [expectedRainfall, fd0, w0])
  rw [he]
  exact (h.1).mpr (by
    norm_num [fd0, soilFor, SOIL_PROPERTIES, dictGet, loamyProps,
      (show ("sandy" : String) ≠ "loamy" by decide)])
